import Mathlib

/-!
Shallow embedding of the `ngx-mat-timepicker` sources:

* `src/projects/mat-timepicker/src/lib/timepicker-base.ts`
  (class `MatTimepickerBase`)
* `src/unnamed/part_000` (component `MatTimepickerToggle`)

Thrown errors are modelled with `Except String`: an `Except.error` result
means the TypeScript method threw, and — since in both methods the throw
happens before any field is mutated — the object state visible to the
caller after the throw is exactly the state the method was called with.
The overlay service of the host framework is modelled by a counter of
fresh overlay ids together with the list of overlays that have been
created and not yet disposed.
-/

namespace NgxMatTimepicker

/-- Keycode `ESCAPE` from `@angular/cdk/keycodes`. -/
def ESCAPE : Nat := 27

/-- Keycode `UP_ARROW` from `@angular/cdk/keycodes`. -/
def UP_ARROW : Nat := 38

/-- Keycode `DOWN_ARROW` from `@angular/cdk/keycodes`. -/
def DOWN_ARROW : Nat := 40

/-- Keycode `LEFT_ARROW` from `@angular/cdk/keycodes`. -/
def LEFT_ARROW : Nat := 37

/-- Keycode `RIGHT_ARROW` from `@angular/cdk/keycodes`. -/
def RIGHT_ARROW : Nat := 39

/-- Keycode `PAGE_UP` from `@angular/cdk/keycodes`. -/
def PAGE_UP : Nat := 33

/-- Keycode `PAGE_DOWN` from `@angular/cdk/keycodes`. -/
def PAGE_DOWN : Nat := 34

/-- The modifier-key flags of a DOM keyboard event, together with its
`keyCode`. -/
structure KeyboardEvent where
  keyCode : Nat
  altKey : Bool
  shiftKey : Bool
  ctrlKey : Bool
  metaKey : Bool
deriving DecidableEq

/-- `hasModifierKey(event)` from `@angular/cdk/keycodes` with no explicit
modifier list: true when any of the four modifier flags is set. -/
def hasModifierKey (e : KeyboardEvent) : Bool :=
  e.altKey || e.shiftKey || e.ctrlKey || e.metaKey

/-- `hasModifierKey(event, 'altKey')`: only the named modifier is
consulted. -/
def hasModifierKeyAlt (e : KeyboardEvent) : Bool :=
  e.altKey

/-- `TimepickerDropdownPositionX = 'start' | 'end'`. -/
inductive TimepickerDropdownPositionX
  | start
  | «end»
deriving DecidableEq

/-- `TimepickerDropdownPositionY = 'above' | 'below'`. -/
inductive TimepickerDropdownPositionY
  | above
  | below
deriving DecidableEq

/-- A horizontal connection edge of a CDK `ConnectedPosition`
(`'start' | 'end'`). -/
inductive HorizontalConnectionPos
  | start
  | «end»
deriving DecidableEq

/-- A vertical connection edge of a CDK `ConnectedPosition`
(`'top' | 'bottom'`). -/
inductive VerticalConnectionPos
  | top
  | bottom
deriving DecidableEq

/-- One entry of the array passed to `strategy.withPositions`. -/
structure ConnectedPosition where
  originX : HorizontalConnectionPos
  originY : VerticalConnectionPos
  overlayX : HorizontalConnectionPos
  overlayY : VerticalConnectionPos
deriving DecidableEq

/-- The mutable fields of `MatTimepickerBase` that the verified claims
touch, plus the model of the overlay service.  `timepickerInput` is
`none` while the field is still `undefined` (no `registerInput` call has
succeeded); truthiness of the field in the source corresponds to
`isSome`.  Inputs themselves are identified by a `Nat`.  `_overlayRef`
and `_componentRef` hold the id of the overlay they reference.
`liveOverlays` lists the overlays created by `this._overlay.create` and
not yet disposed, in creation order, and `nextOverlayId` feeds fresh
ids.  `pendingDestroy` records that `close()` has subscribed
`_destroyOverlay` to the content's exit-animation-done event and that
event has not fired yet. -/
structure MatTimepickerBase where
  _disabled : Bool
  _opened : Bool
  xPosition : TimepickerDropdownPositionX
  yPosition : TimepickerDropdownPositionY
  timepickerInput : Option Nat
  _overlayRef : Option Nat
  _componentRef : Option Nat
  liveOverlays : List Nat
  nextOverlayId : Nat
  pendingDestroy : Bool
deriving DecidableEq

namespace MatTimepickerBase

/-- The state of a freshly constructed timepicker: `_opened = false`
(field initializer), no input registered, no overlay. The `disabled`
input is uninitialized (`private _disabled: boolean;`), which coerces to
false. -/
def initial : MatTimepickerBase where
  _disabled := false
  _opened := false
  xPosition := TimepickerDropdownPositionX.start
  yPosition := TimepickerDropdownPositionY.below
  timepickerInput := none
  _overlayRef := none
  _componentRef := none
  liveOverlays := []
  nextOverlayId := 0
  pendingDestroy := false

/-- Error message thrown by `open()` when no input is associated. -/
def noInputError : String :=
  "Attempted to open an MatTimepicker with no associated input."

/-- Error message thrown by `registerInput` on a second registration. -/
def singleInputError : String :=
  "A MatTimepicker can only be associated with a single input."

/-- `_destroyOverlay()`: if `_overlayRef` is set, dispose that overlay
and null out `_overlayRef` and `_componentRef`; otherwise do nothing. -/
def _destroyOverlay (st : MatTimepickerBase) : MatTimepickerBase :=
  match st._overlayRef with
  | some r =>
      { st with
          liveOverlays := st.liveOverlays.erase r
          _overlayRef := none
          _componentRef := none }
  | none => st

/-- `_openOverlay()`: first `_destroyOverlay()`, then create a fresh
overlay via `this._overlay.create`, store it in `_overlayRef`, attach
the content portal and store the resulting component in
`_componentRef`.  The close-stream and keydown subscriptions installed
here are modelled separately by `processOverlayEvent`; attaching a fresh
content component leaves no exit animation pending. -/
def _openOverlay (st : MatTimepickerBase) : MatTimepickerBase :=
  let st1 := _destroyOverlay st
  let overlayId := st1.nextOverlayId
  { st1 with
      _overlayRef := some overlayId
      _componentRef := some overlayId
      liveOverlays := st1.liveOverlays ++ [overlayId]
      nextOverlayId := st1.nextOverlayId + 1
      pendingDestroy := false }

/-- `open()`: return early when already opened or disabled; throw when
no input is associated; otherwise open the overlay and set
`_opened = true`. -/
def «open» (st : MatTimepickerBase) : Except String MatTimepickerBase :=
  if st._opened || st._disabled then
    Except.ok st
  else if st.timepickerInput.isNone then
    Except.error noInputError
  else
    Except.ok { _openOverlay st with _opened := true }

/-- `close()`: return early when not opened; otherwise, when a content
component exists, start its exit animation and subscribe
`_destroyOverlay` to its animation-done event (`pendingDestroy`), then —
re-checking `_opened`, which cannot have changed in this sequential
model — reset `_opened` and emit on `closedStream`.  The second
component of the result counts the `closedStream.emit()` calls this
invocation performed. -/
def close (st : MatTimepickerBase) : MatTimepickerBase × Nat :=
  if !st._opened then
    (st, 0)
  else
    let st1 :=
      if st._componentRef.isSome then { st with pendingDestroy := true } else st
    if st1._opened then
      ({ st1 with _opened := false }, 1)
    else
      (st1, 0)

/-- The exit-animation-done event fires on the content component:
the subscription made by `close()` runs `_destroyOverlay()`. -/
def _animationDone (st : MatTimepickerBase) : MatTimepickerBase :=
  if st.pendingDestroy then
    { _destroyOverlay st with pendingDestroy := false }
  else
    st

/-- `registerInput(input)`: throw when an input is already associated,
otherwise store the input in `timepickerInput`. -/
def registerInput (st : MatTimepickerBase) (input : Nat) :
    Except String MatTimepickerBase :=
  if st.timepickerInput.isSome then
    Except.error singleInputError
  else
    Except.ok { st with timepickerInput := some input }

/-- The events the overlay can feed into the streams merged by
`_getCloseStream`: a backdrop click, an overlay detachment, or a keydown
event. -/
inductive OverlayEvent
  | backdropClick
  | detachment
  | keydown (e : KeyboardEvent)
deriving DecidableEq

/-- `_getCloseStream(overlayRef)` merges `backdropClick()`,
`detachments()` and `keydownEvents()` filtered to Escape without a
modifier key, or Alt + Up Arrow when an input is associated with the
timepicker.  This predicate says whether a given overlay event is
emitted by that merged stream. -/
def closeStreamEmits (st : MatTimepickerBase) (ev : OverlayEvent) : Bool :=
  match ev with
  | OverlayEvent.backdropClick => true
  | OverlayEvent.detachment => true
  | OverlayEvent.keydown e =>
      (e.keyCode == ESCAPE && !hasModifierKey e) ||
      (st.timepickerInput.isSome && hasModifierKeyAlt e &&
        e.keyCode == UP_ARROW)

/-- The subscription `_openOverlay` installs on `_getCloseStream`: every
emission calls `this.close()` (after `preventDefault` on the event, which
has no state effect in this model).  Events the stream does not emit
leave the picker untouched. -/
def processOverlayEvent (st : MatTimepickerBase) (ev : OverlayEvent) :
    MatTimepickerBase × Nat :=
  if closeStreamEmits st ev then close st else (st, 0)

/-- `_setConnectedPositions`, as a function of the two position inputs:
the four-element fallback list handed to `strategy.withPositions`. -/
def _setConnectedPositions (xPosition : TimepickerDropdownPositionX)
    (yPosition : TimepickerDropdownPositionY) : List ConnectedPosition :=
  let primaryX : HorizontalConnectionPos :=
    if xPosition = TimepickerDropdownPositionX.«end» then
      HorizontalConnectionPos.«end»
    else
      HorizontalConnectionPos.start
  let secondaryX : HorizontalConnectionPos :=
    if primaryX = HorizontalConnectionPos.start then
      HorizontalConnectionPos.«end»
    else
      HorizontalConnectionPos.start
  let primaryY : VerticalConnectionPos :=
    if yPosition = TimepickerDropdownPositionY.above then
      VerticalConnectionPos.bottom
    else
      VerticalConnectionPos.top
  let secondaryY : VerticalConnectionPos :=
    if primaryY = VerticalConnectionPos.top then
      VerticalConnectionPos.bottom
    else
      VerticalConnectionPos.top
  [ { originX := primaryX, originY := secondaryY
      overlayX := primaryX, overlayY := primaryY },
    { originX := primaryX, originY := primaryY
      overlayX := primaryX, overlayY := secondaryY },
    { originX := secondaryX, originY := secondaryY
      overlayX := secondaryX, overlayY := primaryY },
    { originX := secondaryX, originY := primaryY
      overlayX := secondaryX, overlayY := secondaryY } ]

end MatTimepickerBase

/-- A JavaScript number as far as the toggle's tabindex logic can
observe it: `NaN`, or a rational value.  (`-0` is not distinguished from
`0`: the source only tests truthiness and `=== 0`, which agree on the
two.) -/
inductive JSNumber
  | nan
  | num (q : Rat)
deriving DecidableEq

namespace JSNumber

/-- JavaScript truthiness of a number: `NaN` and `0` are falsy, every
other number is truthy. -/
def truthy : JSNumber → Bool
  | nan => false
  | num q => if q = 0 then false else true

/-- JavaScript `=== 0` on a number: false for `NaN`, `q = 0` otherwise. -/
def strictEqZero : JSNumber → Bool
  | nan => false
  | num q => if q = 0 then true else false

end JSNumber

/-- The value of an unsigned decimal digit string. -/
def natOfDigits (cs : List Char) : Nat :=
  cs.foldl (fun a c => a * 10 + (c.toNat - 48)) 0

/-- Model of JavaScript `Number(s)` on the trimmed, sign-stripped part of
a string: a run of digits, optionally followed by a dot and a run of
digits (at least one digit overall), denotes the corresponding decimal;
everything else is `NaN`.  (Exponent, hexadecimal and `Infinity` forms
are outside this model; no claim evaluates the conversion on them.) -/
def jsParseUnsigned (cs : List Char) : JSNumber :=
  let p := cs.span Char.isDigit
  match p.2 with
  | [] =>
      if p.1.isEmpty then JSNumber.nan else JSNumber.num (natOfDigits p.1)
  | '.' :: f =>
      if f.all Char.isDigit && !(p.1.isEmpty && f.isEmpty) then
        JSNumber.num
          ((natOfDigits p.1 : Rat) + (natOfDigits f : Rat) / (10 : Rat) ^ f.length)
      else
        JSNumber.nan
  | _ => JSNumber.nan

/-- ASCII whitespace, as trimmed from both ends by the `Number`
conversion.  (JavaScript also strips some Unicode spaces; they are
outside this model.) -/
def isJSWhitespace (c : Char) : Bool :=
  c = ' ' || c = '\t' || c = '\n' || c = '\r'

/-- Strip leading and trailing whitespace from a character list. -/
def jsTrim (cs : List Char) : List Char :=
  ((cs.dropWhile isJSWhitespace).reverse.dropWhile isJSWhitespace).reverse

/-- Model of JavaScript `Number(s)` on a string: whitespace is trimmed,
an empty remainder is `0`, an optional sign precedes an unsigned decimal
numeral, and anything else is `NaN`. -/
def jsNumberOfString (s : String) : JSNumber :=
  let t := jsTrim s.toList
  match t with
  | [] => JSNumber.num 0
  | '-' :: cs =>
      match jsParseUnsigned cs with
      | JSNumber.num q => JSNumber.num (-q)
      | JSNumber.nan => JSNumber.nan
  | '+' :: cs => jsParseUnsigned cs
  | cs => jsParseUnsigned cs

/-- Model of JavaScript `Number(x)` on the value Angular injects for
`@Attribute('tabindex')`: the attribute string when the attribute is
present, and `null` when it is absent — and `Number(null)` is `0`. -/
def jsNumberOfAttribute : Option String → JSNumber
  | none => JSNumber.num 0
  | some s => jsNumberOfString s

namespace MatTimepickerToggle

/-- The fields of `MatTimepickerToggle` the verified claims touch.  The
`for` input holds the assigned timepicker (`none` when unassigned, which
is falsy); `_disabled` is `none` while still `undefined`; `tabIndex` is
the value the constructor computed. -/
structure State where
  timepicker : Option NgxMatTimepicker.MatTimepickerBase
  _disabled : Option Bool
  tabIndex : Option JSNumber
deriving DecidableEq

/-- The `disabled` getter: when `_disabled` is still `undefined` and a
timepicker is assigned, defer to the timepicker's `disabled`; otherwise
`!!this._disabled`. -/
def disabled (t : State) : Bool :=
  match t._disabled, t.timepicker with
  | none, some tp => tp._disabled
  | d, _ => d.getD false

/-- The tabindex computation in the constructor:
`const parsedTabIndex = Number(defaultTabIndex);`
`this.tabIndex = parsedTabIndex || parsedTabIndex === 0 ? parsedTabIndex : null;`. -/
def constructorTabIndex (defaultTabIndex : Option String) : Option JSNumber :=
  let parsedTabIndex := jsNumberOfAttribute defaultTabIndex
  if parsedTabIndex.truthy || parsedTabIndex.strictEqZero then
    some parsedTabIndex
  else
    none

/-- What a click on the toggle produced: the toggle afterwards (with the
timepicker it references updated in place), the error thrown out of
`open(event)` if any, and whether `event.stopPropagation()` ran. -/
structure ClickOutcome where
  toggle : State
  thrown : Option String
  stoppedPropagation : Bool
deriving DecidableEq

/-- `open(event)` on the toggle: when a timepicker is assigned and the
toggle is not disabled, call `this.timepicker.open()` and then
`event.stopPropagation()`; an error thrown by `open()` propagates,
skipping the `stopPropagation` call.  Otherwise nothing happens. -/
def «open» (t : State) : ClickOutcome :=
  match t.timepicker with
  | some tp =>
      if !(disabled t) then
        match NgxMatTimepicker.MatTimepickerBase.«open» tp with
        | Except.ok tp1 =>
            { toggle := { t with timepicker := some tp1 }
              thrown := none
              stoppedPropagation := true }
        | Except.error msg =>
            { toggle := t, thrown := some msg, stoppedPropagation := false }
      else
        { toggle := t, thrown := none, stoppedPropagation := false }
  | none => { toggle := t, thrown := none, stoppedPropagation := false }

end MatTimepickerToggle

open MatTimepickerBase

/-- A timepicker whose `disabled` input was set and whose input was
never registered. -/
def disabledNoInputPicker : MatTimepickerBase :=
  { MatTimepickerBase.initial with _disabled := true }

/-- A timepicker whose `_opened` flag is set. -/
def openedPicker : MatTimepickerBase :=
  { MatTimepickerBase.initial with
      _opened := true
      timepickerInput := some 0
      _overlayRef := some 0
      _componentRef := some 0
      liveOverlays := [0]
      nextOverlayId := 1 }

/-- A timepicker with an input registered, ready to open. -/
def readyPicker : MatTimepickerBase :=
  { MatTimepickerBase.initial with timepickerInput := some 0 }

/-- A keydown of Escape with no modifier flags. -/
def plainEscape : KeyboardEvent :=
  { keyCode := 27, altKey := false, shiftKey := false, ctrlKey := false
    metaKey := false }

/-- C1 counterexample: a disabled timepicker with no associated input.
`open()` hits the `this._opened || this.disabled` early return before the
missing-input check, so — contrary to the claim's "for every call" — it
returns normally instead of throwing. -/
theorem C1_counterexample :
    disabledNoInputPicker.timepickerInput = none ∧
    MatTimepickerBase.«open» disabledNoInputPicker =
      Except.ok disabledNoInputPicker :=
  ⟨rfl, rfl⟩

/-- C1 (amended): for every call to `open()` on a timepicker that is
neither already opened nor disabled and has no associated input,
`open()` throws `Error('Attempted to open an MatTimepicker with no
associated input.')`; the throw happens before any field is written, so
the picker does not become opened. -/
theorem C1_open_without_input_throws (st : MatTimepickerBase)
    (hop : st._opened = false) (hdis : st._disabled = false)
    (hin : st.timepickerInput = none) :
    MatTimepickerBase.«open» st = Except.error noInputError := by
  simp [MatTimepickerBase.«open», hop, hdis, hin]

/-- C1 witness: a freshly constructed timepicker satisfies the
hypotheses and `open()` throws on it. -/
theorem C1_witness :
    MatTimepickerBase.«open» MatTimepickerBase.initial =
      Except.error noInputError :=
  C1_open_without_input_throws MatTimepickerBase.initial rfl rfl rfl

/-- C2: when no input is associated yet, `registerInput(i)` stores `i`
in `timepickerInput` and changes nothing else; a subsequent
`registerInput(j)` on the result throws `Error('A MatTimepicker can only
be associated with a single input.')` before any field is written, so the
originally registered input `i` is still the one associated. -/
theorem C2_registerInput (st : MatTimepickerBase) (i j : Nat)
    (h : st.timepickerInput = none) :
    ∃ st1, registerInput st i = Except.ok st1 ∧
      st1 = { st with timepickerInput := some i } ∧
      registerInput st1 j = Except.error singleInputError ∧
      st1.timepickerInput = some i := by
  refine ⟨{ st with timepickerInput := some i }, ?_, rfl, ?_, rfl⟩
  · simp [registerInput, h]
  · simp [registerInput]

/-- C2 witness: registering input `0` on a fresh timepicker succeeds and
a second registration of input `1` throws. -/
theorem C2_witness :
    ∃ st1, registerInput MatTimepickerBase.initial 0 = Except.ok st1 ∧
      st1 = { MatTimepickerBase.initial with timepickerInput := some 0 } ∧
      registerInput st1 1 = Except.error singleInputError ∧
      st1.timepickerInput = some 0 :=
  C2_registerInput MatTimepickerBase.initial 0 1 rfl

/-- C7: `open()` on a timepicker that is already opened or disabled
returns through the first guard: no throw (even with no associated
input), no overlay creation, and the entire state — `_opened`,
`timepickerInput` and every other field — is unchanged. -/
theorem C7_open_noop_when_opened_or_disabled (st : MatTimepickerBase)
    (h : st._opened = true ∨ st._disabled = true) :
    MatTimepickerBase.«open» st = Except.ok st := by
  rcases h with h | h <;> simp [MatTimepickerBase.«open», h]

/-- C7 witness: `open()` on an already-opened picker returns it
unchanged, and likewise on a disabled picker with no input. -/
theorem C7_witness :
    MatTimepickerBase.«open» openedPicker = Except.ok openedPicker :=
  C7_open_noop_when_opened_or_disabled openedPicker (Or.inl rfl)

/-- C8: `close()` on a picker that is not opened returns through the
early guard, changing nothing and emitting nothing; `close()` on an
opened picker emits `closedStream` exactly once and clears `_opened`, and
a second `close()` immediately after changes nothing and emits
nothing. -/
theorem C8_close_idempotent (st : MatTimepickerBase) :
    (st._opened = false → close st = (st, 0)) ∧
    (st._opened = true →
      (close st).2 = 1 ∧ (close st).1._opened = false ∧
      close (close st).1 = ((close st).1, 0)) := by
  constructor
  · intro h
    simp [close, h]
  · intro h
    cases hc : st._componentRef.isSome <;>
      simp [close, h, hc]

/-- C8 witness: closing an opened picker emits once, and the immediate
second close is a no-op. -/
theorem C8_witness :
    (close openedPicker).2 = 1 ∧ (close openedPicker).1._opened = false ∧
    close (close openedPicker).1 = ((close openedPicker).1, 0) :=
  (C8_close_idempotent openedPicker).2 rfl

/-- C3: the merged close stream emits exactly for a backdrop click, an
overlay detachment, a keydown of Escape with no modifier key, or a
keydown of Up Arrow with the Alt modifier while an input is associated;
every emission runs the installed subscription, which calls `close()` —
so in particular a plain Escape while the picker is open closes it. -/
theorem C3_close_stream (st : MatTimepickerBase) (ev : OverlayEvent) :
    (closeStreamEmits st ev = true ↔
      (ev = OverlayEvent.backdropClick ∨ ev = OverlayEvent.detachment ∨
        ∃ e, ev = OverlayEvent.keydown e ∧
          ((e.keyCode = ESCAPE ∧ hasModifierKey e = false) ∨
            (st.timepickerInput.isSome = true ∧ hasModifierKeyAlt e = true ∧
              e.keyCode = UP_ARROW)))) ∧
    (closeStreamEmits st ev = true → processOverlayEvent st ev = close st) ∧
    (∀ e, st._opened = true → e.keyCode = ESCAPE → hasModifierKey e = false →
      (processOverlayEvent st (OverlayEvent.keydown e)).1._opened = false) := by
  refine ⟨?_, ?_, ?_⟩
  · cases ev with
    | backdropClick => simp [closeStreamEmits]
    | detachment => simp [closeStreamEmits]
    | keydown e =>
        simp [closeStreamEmits, hasModifierKeyAlt]
        tauto
  · intro h
    simp [processOverlayEvent, h]
  · intro e hop hk hm
    have hemit : closeStreamEmits st (OverlayEvent.keydown e) = true := by
      simp [closeStreamEmits, hk, hm]
    cases hc : st._componentRef.isSome <;>
      simp [processOverlayEvent, hemit, close, hop, hc]

/-- C3 witness: on an opened picker, a plain-Escape keydown runs through
the close stream and clears `_opened`. -/
theorem C3_witness :
    (processOverlayEvent openedPicker
        (MatTimepickerBase.OverlayEvent.keydown plainEscape)).1._opened =
      false :=
  (C3_close_stream openedPicker
      (MatTimepickerBase.OverlayEvent.keydown plainEscape)).2.2
    plainEscape rfl rfl rfl

/-- The horizontal connection edge named by an `xPosition` value. -/
def horizontalOfX : TimepickerDropdownPositionX → HorizontalConnectionPos
  | TimepickerDropdownPositionX.start => HorizontalConnectionPos.start
  | TimepickerDropdownPositionX.«end» => HorizontalConnectionPos.«end»

/-- The opposite horizontal connection edge. -/
def flipHorizontal : HorizontalConnectionPos → HorizontalConnectionPos
  | HorizontalConnectionPos.start => HorizontalConnectionPos.«end»
  | HorizontalConnectionPos.«end» => HorizontalConnectionPos.start

/-- The overlay y edge of the preferred position: `'bottom'` when
`yPosition` is `'above'`, else `'top'`. -/
def preferredOverlayY : TimepickerDropdownPositionY → VerticalConnectionPos
  | TimepickerDropdownPositionY.above => VerticalConnectionPos.bottom
  | TimepickerDropdownPositionY.below => VerticalConnectionPos.top

/-- C4: for every `xPosition` and `yPosition` the dropdown strategy gets
exactly four connected positions, in this fallback order: the preferred
position (its x sides are `xPosition`, its overlay y edge is `'bottom'`
when `yPosition` is `'above'` else `'top'`), the preferred x with the
y pairing (originY, overlayY) swapped, the opposite x with the preferred
y pairing, and the opposite x with the swapped y pairing; every position
has `originX = overlayX`. -/
theorem C4_connected_positions (x : TimepickerDropdownPositionX)
    (y : TimepickerDropdownPositionY) :
    ∃ a b c d : ConnectedPosition,
      _setConnectedPositions x y = [a, b, c, d] ∧
      a.originX = a.overlayX ∧ b.originX = b.overlayX ∧
      c.originX = c.overlayX ∧ d.originX = d.overlayX ∧
      a.overlayX = horizontalOfX x ∧ a.overlayY = preferredOverlayY y ∧
      b.overlayX = horizontalOfX x ∧ b.originY = a.overlayY ∧
      b.overlayY = a.originY ∧
      c.overlayX = flipHorizontal (horizontalOfX x) ∧ c.originY = a.originY ∧
      c.overlayY = a.overlayY ∧
      d.overlayX = flipHorizontal (horizontalOfX x) ∧ d.originY = b.originY ∧
      d.overlayY = b.overlayY := by
  cases x <;> cases y <;> exact ⟨_, _, _, _, rfl, by decide⟩

/-- The overlay bookkeeping invariant: the overlays that exist and are
not yet disposed are exactly the one `_overlayRef` points to (none when
`_overlayRef` is null). -/
def OverlayInvariant (st : MatTimepickerBase) : Prop :=
  st.liveOverlays = st._overlayRef.toList

/-- One externally triggerable transition of a timepicker instance:
a call to `open()` (returning or throwing), a call to `close()`, a call
to `registerInput` (returning or throwing), an overlay event hitting the
close-stream subscription, the content's exit-animation-done event, or
`ngOnDestroy` (which runs `_destroyOverlay()` then `close()`). -/
inductive TimepickerStep : MatTimepickerBase → MatTimepickerBase → Prop
  | openOk {st st' : MatTimepickerBase} :
      MatTimepickerBase.«open» st = Except.ok st' → TimepickerStep st st'
  | openThrow {st : MatTimepickerBase} {msg : String} :
      MatTimepickerBase.«open» st = Except.error msg → TimepickerStep st st
  | closeCall {st st' : MatTimepickerBase} {n : Nat} :
      close st = (st', n) → TimepickerStep st st'
  | registerOk {st st' : MatTimepickerBase} {i : Nat} :
      registerInput st i = Except.ok st' → TimepickerStep st st'
  | registerThrow {st : MatTimepickerBase} {i : Nat} {msg : String} :
      registerInput st i = Except.error msg → TimepickerStep st st
  | overlayEvent {st st' : MatTimepickerBase} {ev : OverlayEvent} {n : Nat} :
      processOverlayEvent st ev = (st', n) → TimepickerStep st st'
  | animationDone {st : MatTimepickerBase} :
      TimepickerStep st (_animationDone st)
  | onDestroy {st : MatTimepickerBase} :
      TimepickerStep st (close (_destroyOverlay st)).1

/-- `_destroyOverlay` preserves the overlay invariant: disposing the
referenced overlay leaves no live overlay and a null reference. -/
theorem overlayInvariant_destroyOverlay (st : MatTimepickerBase)
    (h : OverlayInvariant st) : OverlayInvariant (_destroyOverlay st) := by
  unfold OverlayInvariant at h ⊢
  unfold _destroyOverlay
  cases hr : st._overlayRef with
  | none => simpa [hr] using h
  | some r =>
      rw [hr] at h
      simp [h, List.erase_cons_head]

/-- After `_openOverlay` the live overlays are exactly the freshly
created one, which `_overlayRef` points to. -/
theorem openOverlay_liveOverlays (st : MatTimepickerBase)
    (h : OverlayInvariant st) :
    (_openOverlay st).liveOverlays = [st.nextOverlayId] ∧
    OverlayInvariant (_openOverlay st) := by
  have hd := overlayInvariant_destroyOverlay st h
  have hnone : (_destroyOverlay st)._overlayRef = none := by
    unfold _destroyOverlay
    cases hr : st._overlayRef <;> simp [hr]
  have hlive : (_destroyOverlay st).liveOverlays = [] := by
    unfold OverlayInvariant at hd
    simp [hd, hnone]
  have hnext : (_destroyOverlay st).nextOverlayId = st.nextOverlayId := by
    unfold _destroyOverlay
    cases hr : st._overlayRef <;> simp
  constructor
  · simp [_openOverlay, hlive, hnext]
  · unfold OverlayInvariant
    simp [_openOverlay, hlive]

/-- `close` never touches the overlay list or the overlay reference. -/
theorem close_preserves_overlays (st : MatTimepickerBase) :
    (close st).1.liveOverlays = st.liveOverlays ∧
    (close st).1._overlayRef = st._overlayRef := by
  cases ho : st._opened <;> cases hc : st._componentRef.isSome <;>
    simp [close, ho, hc]

/-- C6: the overlay invariant holds initially, is preserved by every
transition a timepicker instance can take (so at most one overlay is
ever open per instance), `_openOverlay` disposes any existing overlay
before creating the fresh one — the fresh overlay is then the only live
one — and `open()` on an already-opened picker returns through its guard
without creating a second overlay. -/
theorem C6_single_overlay :
    OverlayInvariant MatTimepickerBase.initial ∧
    (∀ st st', OverlayInvariant st → TimepickerStep st st' →
      OverlayInvariant st') ∧
    (∀ st, OverlayInvariant st → st.liveOverlays.length ≤ 1) ∧
    (∀ st, OverlayInvariant st →
      (_openOverlay st).liveOverlays = [st.nextOverlayId]) ∧
    (∀ st, st._opened = true →
      MatTimepickerBase.«open» st = Except.ok st) := by
  have hopen : ∀ st st', OverlayInvariant st →
      MatTimepickerBase.«open» st = Except.ok st' → OverlayInvariant st' := by
    intro st st' h heq
    unfold MatTimepickerBase.«open» at heq
    by_cases hg : (st._opened || st._disabled) = true
    · rw [if_pos hg] at heq
      cases heq
      exact h
    · rw [if_neg hg] at heq
      by_cases hi : st.timepickerInput.isNone = true
      · rw [if_pos hi] at heq
        cases heq
      · rw [if_neg hi] at heq
        cases heq
        have := (openOverlay_liveOverlays st h).2
        unfold OverlayInvariant at this ⊢
        simpa using this
  have hclose : ∀ st st' n, OverlayInvariant st → close st = (st', n) →
      OverlayInvariant st' := by
    intro st st' n h heq
    have hpres := close_preserves_overlays st
    unfold OverlayInvariant at h ⊢
    rw [heq] at hpres
    rw [hpres.1, hpres.2, h]
  refine ⟨rfl, ?_, ?_, ?_, ?_⟩
  · intro st st' h hstep
    cases hstep with
    | openOk heq => exact hopen st st' h heq
    | openThrow heq => exact h
    | closeCall heq => exact hclose _ _ _ h heq
    | registerOk heq =>
        unfold registerInput at heq
        by_cases hr : st.timepickerInput.isSome = true
        · rw [if_pos hr] at heq
          cases heq
        · rw [if_neg hr] at heq
          cases heq
          exact h
    | registerThrow heq => exact h
    | overlayEvent heq =>
        rename_i ev n
        unfold processOverlayEvent at heq
        by_cases he : closeStreamEmits st ev = true
        · rw [if_pos he] at heq
          exact hclose _ _ _ h heq
        · rw [if_neg he] at heq
          cases heq
          exact h
    | animationDone =>
        unfold _animationDone
        by_cases hp : st.pendingDestroy = true
        · rw [if_pos hp]
          have := overlayInvariant_destroyOverlay st h
          unfold OverlayInvariant at this ⊢
          simpa using this
        · rw [if_neg hp]
          exact h
    | onDestroy =>
        exact hclose _ _ _ (overlayInvariant_destroyOverlay st h) rfl
  · intro st h
    unfold OverlayInvariant at h
    rw [h]
    cases st._overlayRef <;> simp
  · intro st h
    exact (openOverlay_liveOverlays st h).1
  · intro st h
    simp [MatTimepickerBase.«open», h]

/-- C6 witness: on the fresh instance the invariant holds and gives at
most one live overlay, and opening the overlay on it makes overlay `0`
the only live one. -/
theorem C6_witness :
    MatTimepickerBase.initial.liveOverlays.length ≤ 1 ∧
    (_openOverlay MatTimepickerBase.initial).liveOverlays =
      [MatTimepickerBase.initial.nextOverlayId] ∧
    MatTimepickerBase.«open» openedPicker = Except.ok openedPicker :=
  ⟨C6_single_overlay.2.2.1 MatTimepickerBase.initial rfl,
    C6_single_overlay.2.2.2.1 MatTimepickerBase.initial rfl,
    C6_single_overlay.2.2.2.2 openedPicker rfl⟩

/-- A toggle assigned to a fresh timepicker whose input was never
registered; the toggle's own `disabled` input is unset. -/
def toggleNoInput : MatTimepickerToggle.State :=
  { timepicker := some MatTimepickerBase.initial
    _disabled := none
    tabIndex := none }

/-- A toggle assigned to a timepicker with an input registered. -/
def toggleReady : MatTimepickerToggle.State :=
  { timepicker := some readyPicker
    _disabled := none
    tabIndex := none }

/-- The picker `toggleReady` references, after a successful `open()`. -/
def openedReadyPicker : MatTimepickerBase :=
  { _openOverlay readyPicker with _opened := true }

/-- C5 counterexample: a toggle with a timepicker assigned and not
disabled, whose timepicker has no associated input.  The click calls
`timepicker.open()`, which throws, so `event.stopPropagation()` — which
comes after that call — never runs, contrary to the claim that the
toggle "calls timepicker.open() and stops event propagation". -/
theorem C5_counterexample :
    toggleNoInput.timepicker = some MatTimepickerBase.initial ∧
    MatTimepickerToggle.disabled toggleNoInput = false ∧
    (MatTimepickerToggle.«open» toggleNoInput).stoppedPropagation = false ∧
    (MatTimepickerToggle.«open» toggleNoInput).thrown = some noInputError :=
  ⟨rfl, rfl, rfl, rfl⟩

/-- C5 (amended): a click on the toggle does nothing when no timepicker
is assigned or the toggle is disabled (where `disabled` defaults to the
assigned timepicker's `disabled` while the toggle's own input is unset);
otherwise it calls `timepicker.open()`, and stops the event's
propagation exactly when that call returns without throwing — an error
thrown by `open()` propagates out and skips `stopPropagation()`. -/
theorem C5_toggle_click (t : MatTimepickerToggle.State) :
    (t.timepicker = none →
      MatTimepickerToggle.«open» t =
        { toggle := t, thrown := none, stoppedPropagation := false }) ∧
    (MatTimepickerToggle.disabled t = true →
      MatTimepickerToggle.«open» t =
        { toggle := t, thrown := none, stoppedPropagation := false }) ∧
    (∀ tp, t._disabled = none → t.timepicker = some tp →
      MatTimepickerToggle.disabled t = tp._disabled) ∧
    (∀ tp, t.timepicker = some tp → MatTimepickerToggle.disabled t = false →
      (∀ tp1, MatTimepickerBase.«open» tp = Except.ok tp1 →
        MatTimepickerToggle.«open» t =
          { toggle := { t with timepicker := some tp1 }
            thrown := none
            stoppedPropagation := true }) ∧
      (∀ msg, MatTimepickerBase.«open» tp = Except.error msg →
        MatTimepickerToggle.«open» t =
          { toggle := t, thrown := some msg
            stoppedPropagation := false })) := by
  refine ⟨?_, ?_, ?_, ?_⟩
  · intro h
    simp [MatTimepickerToggle.«open», h]
  · intro h
    cases ht : t.timepicker with
    | none => simp [MatTimepickerToggle.«open», ht]
    | some tp => simp [MatTimepickerToggle.«open», ht, h]
  · intro tp hd ht
    simp [MatTimepickerToggle.disabled, hd, ht]
  · intro tp ht hd
    constructor
    · intro tp1 hopen
      simp [MatTimepickerToggle.«open», ht, hd, hopen]
    · intro msg hopen
      simp [MatTimepickerToggle.«open», ht, hd, hopen]

/-- C5 witness: clicking a non-disabled toggle whose timepicker is ready
opens that timepicker and stops propagation. -/
theorem C5_witness :
    MatTimepickerToggle.«open» toggleReady =
      { toggle := { toggleReady with timepicker := some openedReadyPicker }
        thrown := none
        stoppedPropagation := true } :=
  ((C5_toggle_click toggleReady).2.2.2 readyPicker rfl rfl).1
    openedReadyPicker rfl

/-- C9 counterexample: with the tabindex attribute missing, Angular
injects `null`, and `Number(null)` is `0`, which passes the
`parsedTabIndex === 0` check — so `tabIndex` becomes `0`, not `null` as
the claim states for a missing attribute. -/
theorem C9_counterexample :
    MatTimepickerToggle.constructorTabIndex none = some (JSNumber.num 0) ∧
    MatTimepickerToggle.constructorTabIndex none ≠ none := by
  constructor
  · rfl
  · decide

/-- C9 (amended): the constructor sets `tabIndex` to `Number(value)`
whenever that conversion yields an actual number — truthy or zero, so
the string `'0'` yields `0` and a missing attribute yields `0` because
`Number(null)` is `0` — and to `null` exactly when the conversion yields
`NaN` (for instance on a non-numeric string). -/
theorem C9_tabIndex : ∀ attr : Option String,
    MatTimepickerToggle.constructorTabIndex attr =
      (match jsNumberOfAttribute attr with
        | JSNumber.nan => none
        | JSNumber.num q => some (JSNumber.num q)) := by
  intro attr
  rcases h : jsNumberOfAttribute attr with _ | q
  · simp [MatTimepickerToggle.constructorTabIndex, h, JSNumber.truthy,
      JSNumber.strictEqZero]
  · by_cases hq : q = 0 <;>
      simp [MatTimepickerToggle.constructorTabIndex, h, JSNumber.truthy,
        JSNumber.strictEqZero, hq]

end NgxMatTimepicker
